import Mathlib

/-!
Verification of the scatter-and-reconstruct animation engine of the jigsaw
shatter-and-rebuild application.  Numbers are modelled as rationals; the
random number generator is modelled as an explicit stream of sample values,
so every operation is a pure function of its inputs and the stream.

Sources embedded:
- src/frontend/src/ScatteredPieces.tsx (scatter placement generator,
  rebuild coordinate transform)
- src/frontend/src/App.tsx and src/unnamed/part_001 (shuffleArray,
  handleShatter)
- src/unnamed/part_000 (ReconstructionAnimation: scatter, startAnimation
  coordinate transform, animate frame loop)
- src/unnamed/part_002 (service-supplied animation engine: generation
  counter, startAnimation, animate, closeAnimation, render-time scaling)
-/

/-- A position inside the display container, as in the Position interface
of ScatteredPieces.tsx and part_000 (top and left in pixels). -/
structure Position where
  top : ℚ
  left : ℚ
deriving DecidableEq

/-- Math.abs, written so that it evaluates by kernel reduction. -/
def mathAbs (x : ℚ) : ℚ := if x < 0 then -x else x

lemma mathAbs_eq_abs (x : ℚ) : mathAbs x = |x| := by
  unfold mathAbs
  rcases lt_or_ge x 0 with h | h
  · simp [h, abs_of_neg h]
  · simp [not_lt.mpr h, abs_of_nonneg h]

/-- Configuration of a scatter placement run: the container dimensions, the
fixed scattered piece size, the padding and the attempt bound.
ScatteredPieces.tsx uses 800 by 400 with piece size 300; part_000 uses
800 by 600 with piece size 150; both use padding 5 and 1000 attempts. -/
structure ScatterConfig where
  containerWidth : ℚ
  containerHeight : ℚ
  pieceSizeScattered : ℚ
  padding : ℚ
  maxAttempts : ℕ
deriving DecidableEq

/-- The configuration of ScatteredPieces.tsx. -/
def scatteredPiecesConfig : ScatterConfig :=
  { containerWidth := 800, containerHeight := 400,
    pieceSizeScattered := 300, padding := 5, maxAttempts := 1000 }

/-- The configuration of the ReconstructionAnimation component (part_000). -/
def reconstructionConfig : ScatterConfig :=
  { containerWidth := 800, containerHeight := 600,
    pieceSizeScattered := 150, padding := 5, maxAttempts := 1000 }

/-- The overlap test of the scatter loop: position overlaps some already
placed position when both coordinate distances are below size plus padding
(ScatteredPieces.tsx lines 47 to 54, part_000 lines 57 to 64). -/
def overlapsTest (cfg : ScatterConfig) (placed : List Position)
    (position : Position) : Bool :=
  placed.any (fun pos =>
    decide (mathAbs (pos.left - position.left) < cfg.pieceSizeScattered + cfg.padding) &&
    decide (mathAbs (pos.top - position.top) < cfg.pieceSizeScattered + cfg.padding))

/-- One random sample of the scatter loop: the two stream values (each
standing for one Math.random() call, a value in the unit interval) scaled
by the free room in the container. -/
def samplePosition (cfg : ScatterConfig) (rand : ℕ → ℚ × ℚ) (k : ℕ) :
    Position :=
  { top := (rand k).1 * (cfg.containerHeight - cfg.pieceSizeScattered),
    left := (rand k).2 * (cfg.containerWidth - cfg.pieceSizeScattered) }

/-- The do-while sampling loop for one piece (ScatteredPieces.tsx lines 41
to 57): sample, count the attempt, repeat while the sample overlaps and the
attempt count is still below the bound.  Returns the accepted position and
the number of attempts used.  The fuel argument makes the recursion
structural; called with fuel equal to the attempt bound it is never
exhausted before the loop condition fails. -/
def pickPosition (cfg : ScatterConfig) (rand : ℕ → ℚ × ℚ)
    (placed : List Position) : ℕ → ℕ → Position × ℕ
  | 0, attempts => (samplePosition cfg rand attempts, attempts + 1)
  | fuel1 + 1, attempts =>
    let position := samplePosition cfg rand attempts
    let attempts1 := attempts + 1
    if overlapsTest cfg placed position = true ∧ attempts1 < cfg.maxAttempts then
      pickPosition cfg rand placed fuel1 attempts1
    else
      (position, attempts1)

/-- The outer for loop of the scatter generator: one accepted position per
piece, each tested against all previously placed pieces.  The stream gives
piece index i its own sub-stream rand i.  Each returned entry carries the
attempts used for that piece. -/
def scatterGo (cfg : ScatterConfig) (rand : ℕ → ℕ → ℚ × ℚ) :
    List ℕ → List Position → List (Position × ℕ)
  | [], _ => []
  | i :: rest, placed =>
    let r := pickPosition cfg (rand i) placed cfg.maxAttempts 0
    r :: scatterGo cfg rand rest (placed ++ [r.1])

/-- The scatter placement generator for n pieces (ScatteredPieces.tsx lines
36 to 60, part_000 lines 46 to 69). -/
def scatterPieces (cfg : ScatterConfig) (rand : ℕ → ℕ → ℚ × ℚ) (n : ℕ) :
    List (Position × ℕ) :=
  scatterGo cfg rand (List.range n) []

/-- The axis-aligned separation predicate of the specification: two
positions are separated when one coordinate distance reaches size plus
padding.  It is the negation of the overlap test for a single pair. -/
def separated (cfg : ScatterConfig) (p q : Position) : Prop :=
  cfg.pieceSizeScattered + cfg.padding ≤ mathAbs (p.left - q.left) ∨
  cfg.pieceSizeScattered + cfg.padding ≤ mathAbs (p.top - q.top)

instance (cfg : ScatterConfig) (p q : Position) : Decidable (separated cfg p q) := by
  unfold separated; infer_instance

/-- A position lies inside the sampling region of the scatter loop. -/
def inRegion (cfg : ScatterConfig) (p : Position) : Prop :=
  0 ≤ p.top ∧ p.top ≤ cfg.containerHeight - cfg.pieceSizeScattered ∧
  0 ≤ p.left ∧ p.left ≤ cfg.containerWidth - cfg.pieceSizeScattered

instance (cfg : ScatterConfig) (p : Position) : Decidable (inRegion cfg p) := by
  unfold inRegion; infer_instance

/-- The run of the scatter generator accepted every piece through a passing
separation test (no piece exhausted its attempt bound on an overlapping
sample).  Defined by recursion mirroring scatterGo. -/
def scatterOk (cfg : ScatterConfig) (rand : ℕ → ℕ → ℚ × ℚ) :
    List ℕ → List Position → Prop
  | [], _ => True
  | i :: rest, placed =>
    let r := pickPosition cfg (rand i) placed cfg.maxAttempts 0
    overlapsTest cfg placed r.1 = false ∧
      scatterOk cfg rand rest (placed ++ [r.1])

-- Helper lemmas on the sampling loop.

lemma pickPosition_attempts_le (cfg : ScatterConfig) (rand : ℕ → ℚ × ℚ)
    (placed : List Position) :
    ∀ fuel attempts, attempts < cfg.maxAttempts →
      (pickPosition cfg rand placed fuel attempts).2 ≤ cfg.maxAttempts := by
  intro fuel
  induction fuel with
  | zero =>
    intro attempts h
    simpa [pickPosition] using h
  | succ fuel1 ih =>
    intro attempts h
    rw [pickPosition]
    split
    · rename_i hcond
      exact ih (attempts + 1) hcond.2
    · simpa using h

lemma scatterGo_length (cfg : ScatterConfig) (rand : ℕ → ℕ → ℚ × ℚ) :
    ∀ (idxs : List ℕ) (placed : List Position),
      (scatterGo cfg rand idxs placed).length = idxs.length := by
  intro idxs
  induction idxs with
  | nil => intro placed; rfl
  | cons i rest ih =>
    intro placed
    simp [scatterGo, ih]

lemma scatterGo_attempts_le (cfg : ScatterConfig) (rand : ℕ → ℕ → ℚ × ℚ)
    (hmax : 0 < cfg.maxAttempts) :
    ∀ (idxs : List ℕ) (placed : List Position),
      ∀ r ∈ scatterGo cfg rand idxs placed, r.2 ≤ cfg.maxAttempts := by
  intro idxs
  induction idxs with
  | nil => intro placed r hr; simp [scatterGo] at hr
  | cons i rest ih =>
    intro placed r hr
    simp only [scatterGo, List.mem_cons] at hr
    rcases hr with h | h
    · subst h
      exact pickPosition_attempts_le cfg (rand i) placed cfg.maxAttempts 0 hmax
    · exact ih _ r h

/-- Claim C5: for every random stream and every piece count n, the scatter
placement generator terminates with exactly n positions, one per piece, and
every piece consumed at most the attempt bound of 1000 samples; this holds
for the configuration of ScatteredPieces.tsx and of part_000 alike, and
regardless of whether the accepted positions overlap. -/
theorem scatter_returns_n_positions_within_bound
    (rand : ℕ → ℕ → ℚ × ℚ) (n : ℕ) :
    (scatterPieces scatteredPiecesConfig rand n).length = n ∧
    (scatterPieces reconstructionConfig rand n).length = n ∧
    (∀ r ∈ scatterPieces scatteredPiecesConfig rand n, r.2 ≤ 1000) ∧
    (∀ r ∈ scatterPieces reconstructionConfig rand n, r.2 ≤ 1000) := by
  refine ⟨?_, ?_, ?_, ?_⟩
  · simpa using scatterGo_length scatteredPiecesConfig rand (List.range n) []
  · simpa using scatterGo_length reconstructionConfig rand (List.range n) []
  · intro r hr
    exact scatterGo_attempts_le scatteredPiecesConfig rand (by norm_num [scatteredPiecesConfig]) _ _ r hr
  · intro r hr
    exact scatterGo_attempts_le reconstructionConfig rand (by norm_num [reconstructionConfig]) _ _ r hr

/-- Witness for claim C5 at a concrete input: two pieces under the
ScatteredPieces.tsx configuration with a constant stream. -/
theorem scatter_returns_n_positions_within_bound_witness :
    (scatterPieces scatteredPiecesConfig (fun _ _ => (0, 0)) 2).length = 2 :=
  (scatter_returns_n_positions_within_bound (fun _ _ => (0, 0)) 2).1

-- Separation lemmas for the scatter generator.

lemma separated_symm (cfg : ScatterConfig) (p q : Position) :
    separated cfg p q ↔ separated cfg q p := by
  unfold separated
  rw [mathAbs_eq_abs, mathAbs_eq_abs, mathAbs_eq_abs, mathAbs_eq_abs,
    abs_sub_comm p.left q.left, abs_sub_comm p.top q.top]

lemma overlapsTest_eq_false_iff (cfg : ScatterConfig) (placed : List Position)
    (p : Position) :
    overlapsTest cfg placed p = false ↔ ∀ q ∈ placed, separated cfg p q := by
  unfold overlapsTest separated
  simp only [List.any_eq_false, Bool.and_eq_true, decide_eq_true_eq, not_and_or, not_lt,
    mathAbs_eq_abs]
  constructor
  · intro h q hq
    rcases h q hq with h1 | h1
    · left; rwa [abs_sub_comm]
    · right; rwa [abs_sub_comm]
  · intro h q hq
    rcases h q hq with h1 | h1
    · left; rwa [abs_sub_comm]
    · right; rwa [abs_sub_comm]

lemma scatterGo_pairwise (cfg : ScatterConfig) (rand : ℕ → ℕ → ℚ × ℚ) :
    ∀ (idxs : List ℕ) (placed : List Position),
      scatterOk cfg rand idxs placed →
      (∀ q ∈ placed, ∀ r ∈ scatterGo cfg rand idxs placed, separated cfg q r.1) ∧
      ((scatterGo cfg rand idxs placed).map Prod.fst).Pairwise (separated cfg) := by
  intro idxs
  induction idxs with
  | nil =>
    intro placed _
    constructor
    · intro q _ r hr; simp [scatterGo] at hr
    · simp [scatterGo]
  | cons i rest ih =>
    intro placed hok
    obtain ⟨hpass, hrest⟩ := hok
    set r := pickPosition cfg (rand i) placed cfg.maxAttempts 0 with hr
    have hsep : ∀ q ∈ placed, separated cfg r.1 q :=
      (overlapsTest_eq_false_iff cfg placed r.1).mp hpass
    obtain ⟨ihA, ihB⟩ := ih (placed ++ [r.1]) hrest
    constructor
    · intro q hq x hx
      simp only [scatterGo, List.mem_cons] at hx
      rcases hx with hx | hx
      · subst hx
        exact (separated_symm cfg r.1 q).mp (hsep q hq)
      · exact ihA q (List.mem_append_left _ hq) x hx
    · simp only [scatterGo, List.map_cons, List.pairwise_cons]
      constructor
      · intro y hy
        simp only [List.mem_map] at hy
        obtain ⟨x, hx, hxy⟩ := hy
        have := ihA r.1 (List.mem_append_right _ (List.mem_singleton_self _)) x hx
        rwa [hxy] at this
      · exact ihB

/-- Claim C6 (amended): a position the scatter generator accepts through a
passing separation test is separated from every previously placed piece; so
whenever a run accepts every piece through a passing test within the
attempt bound, the returned positions are pairwise non-overlapping under
the axis-aligned separation test.  The generator is randomized, however,
and a run may exhaust the attempt bound and accept an overlapping position
even when a non-overlapping layout is geometrically feasible (see the
counterexample). -/
theorem scatter_pairwise_separated_when_tests_pass
    (cfg : ScatterConfig) (rand : ℕ → ℕ → ℚ × ℚ) (n : ℕ)
    (h : scatterOk cfg rand (List.range n) []) :
    ((scatterPieces cfg rand n).map Prod.fst).Pairwise (separated cfg) :=
  (scatterGo_pairwise cfg rand (List.range n) [] h).2

/-- A sampling loop whose very first sample passes the overlap test accepts
that sample with one attempt. -/
lemma pickPosition_accept (cfg : ScatterConfig) (rand : ℕ → ℚ × ℚ)
    (placed : List Position) (fuel1 : ℕ)
    (h : overlapsTest cfg placed (samplePosition cfg rand 0) = false) :
    pickPosition cfg rand placed (fuel1 + 1) 0 = (samplePosition cfg rand 0, 1) := by
  rw [pickPosition]
  simp [h]

/-- Witness for the amended claim C6: two pieces whose first samples land
at left coordinates 0 and 500, which pass the separation test (distance 500
at least 305). -/
theorem scatter_pairwise_separated_when_tests_pass_witness :
    ((scatterPieces scatteredPiecesConfig
        (fun i _ => if i = 0 then (0, 0) else (0, 1)) 2).map
      Prod.fst).Pairwise (separated scatteredPiecesConfig) := by
  apply scatter_pairwise_separated_when_tests_pass
  show scatterOk _ _ (List.range 2) []
  have h2 : List.range 2 = [0, 1] := rfl
  rw [h2]
  have hs0 : samplePosition scatteredPiecesConfig
      ((fun i _ => if i = 0 then ((0 : ℚ), (0 : ℚ)) else (0, 1)) 0) 0 =
      { top := 0, left := 0 } := by
    simp [samplePosition, scatteredPiecesConfig]
  have hs1 : samplePosition scatteredPiecesConfig
      ((fun i _ => if i = 0 then ((0 : ℚ), (0 : ℚ)) else (0, 1)) 1) 0 =
      { top := 0, left := 500 } := by
    simp [samplePosition, scatteredPiecesConfig]
    norm_num
  have hmax : scatteredPiecesConfig.maxAttempts = 999 + 1 := rfl
  have hempty : overlapsTest scatteredPiecesConfig []
      (samplePosition scatteredPiecesConfig
        ((fun i _ => if i = 0 then ((0 : ℚ), (0 : ℚ)) else (0, 1)) 0) 0) = false := by
    simp [overlapsTest]
  have hp0 : pickPosition scatteredPiecesConfig
      ((fun i _ => if i = 0 then ((0 : ℚ), (0 : ℚ)) else (0, 1)) 0) []
      scatteredPiecesConfig.maxAttempts 0 = ({ top := 0, left := 0 }, 1) := by
    rw [hmax, pickPosition_accept _ _ _ _ hempty, hs0]
  have hsep : overlapsTest scatteredPiecesConfig [{ top := 0, left := 0 }]
      (samplePosition scatteredPiecesConfig
        ((fun i _ => if i = 0 then ((0 : ℚ), (0 : ℚ)) else (0, 1)) 1) 0) = false := by
    rw [hs1]
    simp only [overlapsTest, List.any_cons, List.any_nil, Bool.or_false]
    norm_num [mathAbs, scatteredPiecesConfig]
  have hp1 : pickPosition scatteredPiecesConfig
      ((fun i _ => if i = 0 then ((0 : ℚ), (0 : ℚ)) else (0, 1)) 1)
      [{ top := 0, left := 0 }]
      scatteredPiecesConfig.maxAttempts 0 = ({ top := 0, left := 500 }, 1) := by
    rw [hmax, pickPosition_accept _ _ _ _ hsep, hs1]
  refine ⟨?_, ?_, trivial⟩
  · rw [hp0]; exact hempty
  · show overlapsTest _ ([] ++ [_]) _ = false
    rw [hp0]
    simp only [List.nil_append]
    rw [hp1, ← hs1]
    exact hsep

/-- With a constant random stream every sample is the same position, and the
sampling loop returns that position whether or not it ever passes the test. -/
lemma pickPosition_const_fst (cfg : ScatterConfig) (rand : ℕ → ℚ × ℚ)
    (c : ℚ × ℚ) (hc : ∀ k, rand k = c) (placed : List Position) :
    ∀ fuel attempts,
      (pickPosition cfg rand placed fuel attempts).1 =
        samplePosition cfg rand 0 := by
  have hsample : ∀ k, samplePosition cfg rand k = samplePosition cfg rand 0 := by
    intro k; unfold samplePosition; rw [hc k, hc 0]
  intro fuel
  induction fuel with
  | zero => intro attempts; simp [pickPosition, hsample attempts]
  | succ fuel1 ih =>
    intro attempts
    rw [pickPosition]
    split
    · exact ih (attempts + 1)
    · simp [hsample attempts]

/-- Counterexample to claim C6 as stated: in the ScatteredPieces.tsx region
a pairwise non-overlapping layout for two pieces is geometrically feasible
(the two in-region positions with left coordinates 0 and 450 are separated),
yet the run of the generator on the constant random stream places both
pieces at the same point, exhausting the attempt bound for the second piece
and returning an overlapping layout. -/
theorem scatter_feasible_but_overlapping_counterexample :
    inRegion scatteredPiecesConfig { top := 0, left := 0 } ∧
    inRegion scatteredPiecesConfig { top := 0, left := 450 } ∧
    separated scatteredPiecesConfig { top := 0, left := 0 }
      { top := 0, left := 450 } ∧
    ¬ ((scatterPieces scatteredPiecesConfig (fun _ _ => (0, 0)) 2).map
        Prod.fst).Pairwise (separated scatteredPiecesConfig) := by
  have hsample : samplePosition scatteredPiecesConfig (fun _ => ((0 : ℚ), (0 : ℚ))) 0 =
      { top := 0, left := 0 } := by
    simp [samplePosition, scatteredPiecesConfig]
  refine ⟨?_, ?_, ?_, ?_⟩
  · norm_num [inRegion, scatteredPiecesConfig]
  · norm_num [inRegion, scatteredPiecesConfig]
  · norm_num [separated, mathAbs, scatteredPiecesConfig]
  · intro hpair
    have hmap : (scatterPieces scatteredPiecesConfig (fun _ _ => (0, 0)) 2).map
        Prod.fst = [{ top := 0, left := 0 }, { top := 0, left := 0 }] := by
      show ((scatterGo _ _ (List.range 2) []).map Prod.fst) = _
      have h2 : List.range 2 = [0, 1] := rfl
      rw [h2]
      simp only [scatterGo, List.map_cons, List.map_nil]
      rw [pickPosition_const_fst scatteredPiecesConfig _ (0, 0) (fun _ => rfl),
        pickPosition_const_fst scatteredPiecesConfig _ (0, 0) (fun _ => rfl),
        hsample]
    rw [hmap] at hpair
    have hsep := List.rel_of_pairwise_cons hpair (List.mem_singleton_self _)
    rcases hsep with h | h <;> norm_num [mathAbs, scatteredPiecesConfig] at h

-- Coordinate transform (part_000 startAnimation, part_002 render scaling).

/-- A piece coordinate received from the reconstruction service, as in the
PieceCoordinate interface of part_000. -/
structure PieceCoordinate where
  piece_index : ℕ
  top : ℚ
  left : ℚ
deriving DecidableEq

/-- The uniform scale factor Math.min(destWidth / srcWidth,
destHeight / srcHeight, 1): part_000 startAnimation lines 84 to 86 with
destination 800 by 600 and source the grid of piece dimensions, and the
part_002 render lines 1540 to 1542 with destination 800 by 600 and source
the canvas size.  Math.min of three arguments associates as min (min a b) c. -/
def computeScale (destW destH srcW srcH : ℚ) : ℚ :=
  min (min (destW / srcW) (destH / srcH)) 1

/-- The per-axis centering offset (destSize - srcSize * scale) / 2 of
part_000 startAnimation lines 90 to 91. -/
def centerOffset (dest src scale : ℚ) : ℚ := (dest - src * scale) / 2

/-- The final positions computed by part_000 startAnimation lines 83 to 93:
each coordinate is scaled and shifted by the centering term, with container
800 by 600 and source size gridSize times the piece dimensions. -/
def finalPositionsOf (gridSize : ℕ) (pieceW pieceH : ℚ)
    (coords : List PieceCoordinate) : List Position :=
  let scale := computeScale 800 600 (gridSize * pieceW) (gridSize * pieceH)
  coords.map (fun coord =>
    { top := coord.top * scale + (600 - gridSize * pieceH * scale) / 2,
      left := coord.left * scale + (800 - gridSize * pieceW * scale) / 2 })

/-- The coordinate transform as the specification words it: scale the point
uniformly and add the centering offset.  Used to compare the code against
the specification formula. -/
def specTransformPoint (destW destH srcW srcH x y : ℚ) : ℚ × ℚ :=
  let s := computeScale destW destH srcW srcH
  (x * s + centerOffset destW srcW s, y * s + centerOffset destH srcH s)

/-- Claim C3: the transform uses the uniform scale
min(destW / srcW, destH / srcH, 1), which never exceeds 1; the part_000
transform maps each coordinate to srcPoint times scale plus the centering
offset (destSize - srcSize * scale) / 2; scaling a 1600 by 1200 source into
an 800 by 600 destination gives scale one half with zero centering offset,
and scaling 800 by 600 into 800 by 600 gives scale 1 with zero offset. -/
theorem coordinate_transform_scale_and_centering
    (destW destH srcW srcH : ℚ) (hw : 0 < srcW) (hh : 0 < srcH)
    (gridSize : ℕ) (pieceW pieceH : ℚ) (coords : List PieceCoordinate) :
    computeScale destW destH srcW srcH ≤ 1 ∧
    finalPositionsOf gridSize pieceW pieceH coords = coords.map (fun coord =>
      let p := specTransformPoint 800 600 (gridSize * pieceW) (gridSize * pieceH)
        coord.left coord.top
      { left := p.1, top := p.2 }) ∧
    computeScale 800 600 1600 1200 = 1 / 2 ∧
    centerOffset 800 1600 (1 / 2) = 0 ∧
    centerOffset 600 1200 (1 / 2) = 0 ∧
    computeScale 800 600 800 600 = 1 ∧
    centerOffset 800 800 1 = 0 ∧
    centerOffset 600 600 1 = 0 := by
  refine ⟨min_le_right _ _, ?_, ?_, ?_, ?_, ?_, ?_, ?_⟩
  · unfold finalPositionsOf specTransformPoint centerOffset
    rfl
  · unfold computeScale; norm_num
  · unfold centerOffset; norm_num
  · unfold centerOffset; norm_num
  · unfold computeScale; norm_num
  · unfold centerOffset; norm_num
  · unfold centerOffset; norm_num

/-- Witness for claim C3 at concrete inputs: a 1600 by 1200 source mapped
into the 800 by 600 container, with one coordinate at (100, 200). -/
theorem coordinate_transform_scale_and_centering_witness :
    computeScale 800 600 1600 1200 ≤ 1 ∧
    finalPositionsOf 4 400 300 [{ piece_index := 0, top := 100, left := 200 }] =
      [{ top := 100 * computeScale 800 600 1600 1200 +
            (600 - 4 * 300 * computeScale 800 600 1600 1200) / 2,
         left := 200 * computeScale 800 600 1600 1200 +
            (800 - 4 * 400 * computeScale 800 600 1600 1200) / 2 }] := by
  have h := coordinate_transform_scale_and_centering 800 600 1600 1200
    (by norm_num) (by norm_num) 4 400 300 [{ piece_index := 0, top := 100, left := 200 }]
  refine ⟨h.1, ?_⟩
  have h2 := h.2.1
  rw [h2]
  simp only [List.map_cons, List.map_nil, specTransformPoint, centerOffset]
  norm_num

-- Per-frame interpolation (part_000 animate, part_002 animate).

/-- Linear interpolation a + (b - a) * t, the per-axis formula of the
animate loops. -/
def lerp (a b t : ℚ) : ℚ := a + (b - a) * t

/-- The cubic ease-out 1 - (1 - progress)^3 of part_000 line 104 and
part_002 line 800. -/
def easeOutCubic (progress : ℚ) : ℚ := 1 - (1 - progress) ^ 3

/-- One frame of the part_000 animate loop (lines 106 to 117): every piece
with a final position is moved to the interpolation between its start
position and that final position at the eased progress; pieces beyond the
final position list keep their start position. -/
def animateFrame (positions finalPositions : List Position)
    (easeProgress : ℚ) : List Position :=
  positions.mapIdx (fun i startPos =>
    match finalPositions[i]? with
    | some endPos =>
      { top := startPos.top + (endPos.top - startPos.top) * easeProgress,
        left := startPos.left + (endPos.left - startPos.left) * easeProgress }
    | none => startPos)

/-- A piece of the part_002 animation run: index, scattered position, final
placement position from the service, and current position. -/
structure AnimPiece where
  piece_index : ℕ
  scattered_position : ℚ × ℚ
  final_position : ℚ × ℚ
  current_position : ℚ × ℚ
deriving DecidableEq

/-- One frame of the part_002 animate loop (lines 802 to 814): every piece
moves from its scattered position toward the overlay origin (0, 0) at the
eased progress; the final_position field is read but not used as the
interpolation target. -/
def animateUpdatedPieces (scattered : List AnimPiece) (eased : ℚ) :
    List AnimPiece :=
  scattered.map (fun piece =>
    let startX := piece.scattered_position.1
    let startY := piece.scattered_position.2
    let currentX := startX + (0 - startX) * eased
    let currentY := startY + (0 - startY) * eased
    { piece with current_position := (currentX, currentY) })

/-- Counterexample to claim C2 as stated: in the part_002 engine a piece
scattered at (10, 20) with final placement position (100, 50) is moved, at
full eased progress, to the overlay origin (0, 0) and not to the
interpolation toward its final placement position, which would be
(100, 50). -/
theorem moving_frame_target_counterexample :
    (animateUpdatedPieces
        [{ piece_index := 0, scattered_position := (10, 20),
           final_position := (100, 50), current_position := (10, 20) }]
        (easeOutCubic 1)).map AnimPiece.current_position = [(0, 0)] ∧
    ((0 : ℚ), (0 : ℚ)) ≠
      (lerp 10 100 (easeOutCubic 1), lerp 20 50 (easeOutCubic 1)) := by
  constructor
  · simp only [animateUpdatedPieces, List.map_cons, List.map_nil]
    norm_num [easeOutCubic]
  · intro h
    have h2 := congrArg Prod.fst h
    simp only [lerp, easeOutCubic] at h2
    norm_num at h2

/-- Claim C2 (amended): in the Moving phase every frame sets each current
position to lerp(start, target, eased) per axis with
lerp(a, b, t) = a + (b - a) * t, and the final commit at progress 1 lands
exactly on the target with no residual interpolation error; in the
grid-derived engine (part_000) the target is the final placement position
of the piece, while in the service-supplied engine (part_002) the target is
the overlay origin (0, 0) for every piece rather than the final_position
field. -/
theorem moving_frame_lerp_and_exact_final_commit
    (positions finals : List Position) (pieces : List AnimPiece) (e : ℚ)
    (i : ℕ) (hi : i < positions.length) (hif : i < finals.length)
    (j : ℕ) (hj : j < pieces.length) :
    (animateFrame positions finals e)[i]? = some
      { top := lerp (positions[i]).top (finals[i]).top e,
        left := lerp (positions[i]).left (finals[i]).left e } ∧
    (animateFrame positions finals (easeOutCubic 1))[i]? = some finals[i] ∧
    (animateUpdatedPieces pieces e)[j]? = some
      { pieces[j] with current_position :=
          (lerp (pieces[j]).scattered_position.1 0 e,
           lerp (pieces[j]).scattered_position.2 0 e) } ∧
    ((animateUpdatedPieces pieces (easeOutCubic 1))[j]?.map
      AnimPiece.current_position) = some (0, 0) := by
  have h1 : easeOutCubic 1 = 1 := by norm_num [easeOutCubic]
  have hlerp1 : ∀ a b : ℚ, lerp a b 1 = b := by intro a b; unfold lerp; ring
  have hframe : ∀ e0 : ℚ, (animateFrame positions finals e0)[i]? = some
      { top := lerp (positions[i]).top (finals[i]).top e0,
        left := lerp (positions[i]).left (finals[i]).left e0 } := by
    intro e0
    rw [animateFrame, List.getElem?_mapIdx, List.getElem?_eq_getElem hi,
      List.getElem?_eq_getElem hif]
    rfl
  have hpieces : ∀ e0 : ℚ, (animateUpdatedPieces pieces e0)[j]? = some
      { pieces[j] with current_position :=
          (lerp (pieces[j]).scattered_position.1 0 e0,
           lerp (pieces[j]).scattered_position.2 0 e0) } := by
    intro e0
    rw [animateUpdatedPieces, List.getElem?_map, List.getElem?_eq_getElem hj]
    rfl
  refine ⟨hframe e, ?_, hpieces e, ?_⟩
  · rw [hframe (easeOutCubic 1), h1, hlerp1, hlerp1]
  · rw [hpieces (easeOutCubic 1), h1, hlerp1, hlerp1]
    rfl

/-- Witness for the amended claim C2 at concrete inputs: one piece starting
at (1, 2) with final position (3, 4) lands exactly on its final position at
full eased progress. -/
theorem moving_frame_lerp_and_exact_final_commit_witness :
    (animateFrame [{ top := 1, left := 2 }] [{ top := 3, left := 4 }]
      (easeOutCubic 1))[0]? = some { top := 3, left := 4 } := by
  have h := moving_frame_lerp_and_exact_final_commit
    [{ top := 1, left := 2 }] [{ top := 3, left := 4 }]
    [{ piece_index := 0, scattered_position := (1, 2), final_position := (3, 4),
       current_position := (1, 2) }]
    2 0 (by norm_num) (by norm_num) 0 (by norm_num)
  exact h.2.1

-- Frame progress (part_000 animate lines 100 to 104, part_002 animate
-- lines 796 to 800).

/-- The per-frame progress Math.min(elapsed / duration, 1).  Both animate
loops use duration 2000 milliseconds. -/
def progressOf (elapsed duration : ℚ) : ℚ := min (elapsed / duration) 1

/-- Claim C9: within a run (elapsed times are nonnegative and the duration
is positive) the progress value is monotonically non-decreasing in elapsed
time, always lies in the closed interval from 0 to 1 - also strictly inside
the run, before the duration is reached - equals exactly 1 for every
elapsed time at or beyond the duration, and agrees with
clamp(elapsed / duration, 0, 1) everywhere on the in-run domain. -/
theorem progress_monotone_bounded_reaches_one
    (duration e1 e2 e e3 : ℚ) (hd : 0 < duration) (h0 : 0 ≤ e) (h01 : 0 ≤ e1)
    (h12 : e1 ≤ e2) (hde3 : duration ≤ e3) :
    progressOf e1 duration ≤ progressOf e2 duration ∧
    0 ≤ progressOf e duration ∧ progressOf e duration ≤ 1 ∧
    progressOf e3 duration = 1 ∧
    progressOf e duration = max 0 (min (e / duration) 1) := by
  have hmono : progressOf e1 duration ≤ progressOf e2 duration := by
    unfold progressOf
    exact min_le_min (div_le_div_of_nonneg_right h12 hd.le) le_rfl
  have hnn : 0 ≤ min (e / duration) 1 := le_min (by positivity) (by norm_num)
  have hone : progressOf e3 duration = 1 := by
    unfold progressOf
    rw [min_eq_right]
    rw [le_div_iff₀ hd]
    simpa using hde3
  refine ⟨hmono, hnn, min_le_right _ _, hone, ?_⟩
  rw [max_eq_right hnn]
  rfl

/-- Witness for claim C9 at concrete inputs: duration 2000 with in-run
elapsed times 500, 800 and 1000 and the past-duration elapsed time 2500. -/
theorem progress_monotone_bounded_reaches_one_witness :
    progressOf 500 2000 ≤ progressOf 800 2000 ∧
    0 ≤ progressOf 1000 2000 ∧ progressOf 1000 2000 ≤ 1 ∧
    progressOf 2500 2000 = 1 ∧
    progressOf 1000 2000 = max 0 (min (1000 / 2000) 1) :=
  progress_monotone_bounded_reaches_one 2000 500 800 1000 2500
    (by norm_num) (by norm_num) (by norm_num) (by norm_num) (by norm_num)

-- The part_002 animation engine: generation counter and frame callbacks.

/-- The animation phase of part_002 (scattered, moving, complete). -/
inductive AnimationPhase where
  | scattered
  | moving
  | complete
deriving DecidableEq

/-- One entry of the placement data returned by the rebuild service. -/
structure PlacementPiece where
  piece_index : ℕ
  final_position : ℚ × ℚ
deriving DecidableEq

/-- The placement data of a successful rebuild (canvas size, piece size and
per-piece final positions). -/
structure PlacementData where
  canvas_size : ℚ × ℚ
  piece_size : ℚ × ℚ
  pieces : List PlacementPiece
deriving DecidableEq

/-- The observable state of the part_002 engine: the generation counter
animationIdRef, the committed snapshot scatteredPieces, the working buffer
animationRef, the phase, the animating flag and the placement data refs. -/
structure EngineState where
  animationId : ℕ
  isAnimating : Bool
  animationPhase : AnimationPhase
  scatteredPieces : List AnimPiece
  animationRef : List AnimPiece
  placementData : Option PlacementData
  currentPlacementData : Option PlacementData
deriving DecidableEq

/-- generateScatteredPositions of part_002 (lines 749 to 764): each piece
is given a random scattered position inside the margin-expanded canvas
bounds; the stream value pair stands for the two Math.random() calls. -/
def generateScatteredPositions (rand : ℕ → ℚ × ℚ) (pd : PlacementData) :
    List AnimPiece :=
  pd.pieces.mapIdx (fun i piece =>
    let margin : ℚ := 100
    let x := (rand i).1 * (pd.canvas_size.1 + margin * 2) - margin
    let y := (rand i).2 * (pd.canvas_size.2 + margin * 2) - margin
    { piece_index := piece.piece_index, scattered_position := (x, y),
      final_position := piece.final_position, current_position := (x, y) })

/-- startAnimation of part_002 (lines 766 to 834) without the frame
scheduling: no placement data is a no-op; otherwise the generation counter
is incremented, the refs reset, scattered positions generated and the phase
set to moving. -/
def startAnimation (rand : ℕ → ℚ × ℚ) (s : EngineState) : EngineState :=
  match s.placementData with
  | none => s
  | some pd =>
    let scattered := generateScatteredPositions rand pd
    { s with animationRef := [], animationId := s.animationId + 1,
             currentPlacementData := some pd, isAnimating := true,
             scatteredPieces := scattered,
             animationPhase := AnimationPhase.moving }

/-- One invocation of the animate frame callback of part_002 (lines 790 to
831), for the run that captured generation runId and start list scattered:
a stale generation returns without any write; otherwise the working buffer
always receives the interpolated pieces, the committed snapshot is updated
at the throttled cadence (every third progress tick), and at progress 1 the
phase becomes complete and the snapshot receives the final pieces. -/
def animateStep (runId : ℕ) (scattered : List AnimPiece) (elapsed : ℚ)
    (s : EngineState) : EngineState :=
  if runId ≠ s.animationId then s
  else
    let progress := progressOf elapsed 2000
    let eased := easeOutCubic progress
    let updatedPieces := animateUpdatedPieces scattered eased
    let s1 := { s with animationRef := updatedPieces }
    let s2 := if ⌊progress * 120⌋ % 3 = 0 then
        { s1 with scatteredPieces := updatedPieces }
      else s1
    if progress < 1 then s2
    else { s2 with animationPhase := AnimationPhase.complete,
                   scatteredPieces := updatedPieces }

/-- closeAnimation of part_002 (lines 836 to 848): clears the animation
view state but keeps the placement data and the generation counter. -/
def closeAnimation (s : EngineState) : EngineState :=
  { s with isAnimating := false, scatteredPieces := [],
           animationPhase := AnimationPhase.scattered,
           animationRef := [], currentPlacementData := none }

/-- The animation-state reset at the top of handleRebuild of part_002
(lines 685 to 691). -/
def rebuildClearState (s : EngineState) : EngineState :=
  { s with placementData := none, isAnimating := false,
           scatteredPieces := [],
           animationPhase := AnimationPhase.scattered,
           animationRef := [], currentPlacementData := none }

/-- setPlacementData on a rebuild response (line 706). -/
def setPlacementData (pd : Option PlacementData) (s : EngineState) :
    EngineState :=
  { s with placementData := pd }

/-- The engine triggers that can interleave with in-flight frame callbacks:
starting a run, closing the overlay, the rebuild reset, a fresh placement
response, and a frame callback of some (possibly stale) run. -/
inductive EngineEvent where
  | start (rand : ℕ → ℚ × ℚ)
  | close
  | rebuildClear
  | setPlacement (pd : Option PlacementData)
  | frame (runId : ℕ) (scattered : List AnimPiece) (elapsed : ℚ)

/-- The step function of the engine over triggers. -/
def engineStep : EngineEvent → EngineState → EngineState
  | EngineEvent.start rand, s => startAnimation rand s
  | EngineEvent.close, s => closeAnimation s
  | EngineEvent.rebuildClear, s => rebuildClearState s
  | EngineEvent.setPlacement pd, s => setPlacementData pd s
  | EngineEvent.frame runId scattered elapsed, s =>
      animateStep runId scattered elapsed s

/-- Running a sequence of engine triggers. -/
def engineRun (evs : List EngineEvent) (s : EngineState) : EngineState :=
  evs.foldl (fun t ev => engineStep ev t) s

lemma animateStep_stale (runId : ℕ) (scattered : List AnimPiece)
    (elapsed : ℚ) (s : EngineState) (h : runId ≠ s.animationId) :
    animateStep runId scattered elapsed s = s := by
  unfold animateStep
  simp [h]

lemma engineStep_animationId_mono (ev : EngineEvent) (s : EngineState) :
    s.animationId ≤ (engineStep ev s).animationId := by
  cases ev with
  | start rand =>
    show s.animationId ≤ (startAnimation rand s).animationId
    unfold startAnimation
    cases s.placementData <;> simp
  | close => exact le_refl _
  | rebuildClear => exact le_refl _
  | setPlacement pd => exact le_refl _
  | frame runId scattered elapsed =>
    show s.animationId ≤ (animateStep runId scattered elapsed s).animationId
    unfold animateStep
    split
    · exact le_refl _
    · simp only []
      split <;> split <;> simp

lemma engineRun_animationId_mono (evs : List EngineEvent) :
    ∀ s : EngineState, s.animationId ≤ (engineRun evs s).animationId := by
  induction evs with
  | nil => intro s; exact le_refl _
  | cons ev rest ih =>
    intro s
    exact le_trans (engineStep_animationId_mono ev s) (ih (engineStep ev s))

/-- Claim C1: once a newer run has been started (the generation counter has
been incremented past a run's captured generation), that run's frame
callback performs no observable write at all: for every further interleaving
of start, close, reset and placement triggers with frame callbacks, the
stale callback leaves the whole engine state (piece positions, committed
snapshot, working buffer and phase) unchanged. -/
theorem stale_run_frame_is_noop (s : EngineState) (evs : List EngineEvent)
    (runId : ℕ) (scattered : List AnimPiece) (elapsed : ℚ)
    (h : runId < s.animationId) :
    engineStep (EngineEvent.frame runId scattered elapsed) (engineRun evs s) =
      engineRun evs s := by
  have hmono := engineRun_animationId_mono evs s
  have hne : runId ≠ (engineRun evs s).animationId :=
    Nat.ne_of_lt (lt_of_lt_of_le h hmono)
  exact animateStep_stale runId scattered elapsed (engineRun evs s) hne

/-- Witness for claim C1 at a concrete input: generation 0 callback firing
after the engine is at generation 1 and a close trigger ran in between. -/
theorem stale_run_frame_is_noop_witness :
    engineStep (EngineEvent.frame 0 [] 100)
      (engineRun [EngineEvent.close]
        { animationId := 1, isAnimating := true,
          animationPhase := AnimationPhase.moving, scatteredPieces := [],
          animationRef := [], placementData := none,
          currentPlacementData := none }) =
      engineRun [EngineEvent.close]
        { animationId := 1, isAnimating := true,
          animationPhase := AnimationPhase.moving, scatteredPieces := [],
          animationRef := [], placementData := none,
          currentPlacementData := none } :=
  stale_run_frame_is_noop _ [EngineEvent.close] 0 [] 100 (by norm_num)

-- shuffleArray (App.tsx lines 6 to 13, part_001 lines 6 to 13, part_002
-- lines 6 to 13 and 205 to 212; the four copies are identical).

/-- The destructuring swap of the shuffle loop: the element at index i
receives the old element at index j and vice versa.  Out-of-range indices
leave the list unchanged; the shuffle loop only ever uses in-range
indices. -/
def swapJS {α : Type} (arr : List α) (i j : ℕ) : List α :=
  match arr[i]?, arr[j]? with
  | some a, some b => (arr.set i b).set j a
  | _, _ => arr

/-- The loop of shuffleArray, iterating i from the last index down to 1 and
swapping index i with index rand i % (i + 1); the modulus models
Math.floor(Math.random() * (i + 1)), a uniformly chosen index between 0 and
i inclusive. -/
def shuffleLoop {α : Type} (rand : ℕ → ℕ) : List α → ℕ → List α
  | arr, 0 => arr
  | arr, i + 1 => shuffleLoop rand (swapJS arr (i + 1) (rand (i + 1) % (i + 2))) i

/-- shuffleArray: copy the input array and run the swap loop from the last
index down to 1. -/
def shuffleArray {α : Type} (rand : ℕ → ℕ) (array : List α) : List α :=
  shuffleLoop rand array (array.length - 1)

lemma count_swapJS {α : Type} [DecidableEq α] (arr : List α) (i j : ℕ)
    (x : α) : (swapJS arr i j).count x = arr.count x := by
  unfold swapJS
  cases hi : arr[i]? with
  | none => rfl
  | some a =>
    cases hj : arr[j]? with
    | none => rfl
    | some b =>
      obtain ⟨hilt, hieq⟩ := List.getElem?_eq_some.mp hi
      obtain ⟨hjlt, hjeq⟩ := List.getElem?_eq_some.mp hj
      have hjlt2 : j < (arr.set i b).length := by simpa using hjlt
      have hmema : a ∈ arr := hieq ▸ List.getElem_mem hilt
      have hmemb : b ∈ arr := hjeq ▸ List.getElem_mem hjlt
      rw [List.count_set, List.count_set b x arr i hilt]
      have hgs : (arr.set i b)[j] = b := by
        rw [List.getElem_set]
        split
        · rfl
        · exact hjeq
      rw [hgs, hieq]
      simp only [beq_iff_eq]
      have hca : a = x → 0 < arr.count x := by
        intro h; exact List.count_pos_iff.mpr (h ▸ hmema)
      have hcb : b = x → 0 < arr.count x := by
        intro h; exact List.count_pos_iff.mpr (h ▸ hmemb)
      by_cases hax : a = x <;> by_cases hbx : b = x <;>
        simp only [hax, hbx, if_pos, if_neg, if_true, if_false] <;>
        simp_all

lemma swapJS_perm {α : Type} (arr : List α) (i j : ℕ) :
    (swapJS arr i j).Perm arr := by
  classical
  exact List.perm_iff_count.mpr (fun x => count_swapJS arr i j x)

lemma shuffleLoop_perm {α : Type} (rand : ℕ → ℕ) :
    ∀ (i : ℕ) (arr : List α), (shuffleLoop rand arr i).Perm arr := by
  intro i
  induction i with
  | zero => intro arr; exact List.Perm.refl arr
  | succ i1 ih =>
    intro arr
    exact (ih (swapJS arr (i1 + 1) (rand (i1 + 1) % (i1 + 2)))).trans
      (swapJS_perm arr (i1 + 1) (rand (i1 + 1) % (i1 + 2)))

/-- Claim C7: for every random stream and every input list, shuffleArray
returns a permutation of the list (the same multiset of elements, nothing
added, dropped or duplicated), computed by the swap loop that iterates from
the last index down to the first and swaps each element with one at a
uniformly chosen earlier-or-equal index; a repeated shuffle is again a
permutation of the original list. -/
theorem shuffleArray_is_permutation {α : Type} (rand rand2 : ℕ → ℕ)
    (l : List α) :
    (shuffleArray rand l).Perm l ∧
    (shuffleArray rand2 (shuffleArray rand l)).Perm l := by
  have h1 : (shuffleArray rand l).Perm l := shuffleLoop_perm rand _ l
  have h2 : (shuffleArray rand2 (shuffleArray rand l)).Perm (shuffleArray rand l) :=
    shuffleLoop_perm rand2 _ _
  exact ⟨h1, h2.trans h1⟩

-- The heap view of shuffleArray: the argument array is copied, all writes
-- go to the fresh copy, the caller's array is untouched.

/-- A store of arrays, indexed by allocation order. -/
abbrev Store (α : Type) : Type := List (List α)

/-- Read an array reference from the store. -/
def readRef {α : Type} (σ : Store α) (r : ℕ) : List α :=
  (σ[r]?).getD []

/-- Write an array reference in the store. -/
def writeRef {α : Type} (σ : Store α) (r : ℕ) (v : List α) : Store α :=
  List.set σ r v

/-- The shuffle loop acting on the store, all writes targeting arrRef. -/
def shuffleLoopRef {α : Type} (rand : ℕ → ℕ) (arrRef : ℕ) :
    ℕ → Store α → Store α
  | 0, σ => σ
  | i + 1, σ =>
    shuffleLoopRef rand arrRef i
      (writeRef σ arrRef
        (swapJS (readRef σ arrRef) (i + 1) (rand (i + 1) % (i + 2))))

/-- shuffleArray with the allocation made explicit: the spread copies the
argument into a freshly allocated array, the swap loop mutates only that
copy, and the copy is returned. -/
def shuffleArrayRef {α : Type} (rand : ℕ → ℕ) (σ : Store α) (r : ℕ) :
    Store α × ℕ :=
  let arr := readRef σ r
  let arrRef := σ.length
  let σ1 := σ ++ [arr]
  (shuffleLoopRef rand arrRef (arr.length - 1) σ1, arrRef)

lemma readRef_writeRef_ne {α : Type} (σ : Store α) (r1 r2 : ℕ)
    (v : List α) (h : r1 ≠ r2) : readRef (writeRef σ r1 v) r2 = readRef σ r2 := by
  unfold readRef writeRef
  rw [List.getElem?_set]
  simp [h]

lemma readRef_writeRef_self {α : Type} (σ : Store α) (r : ℕ) (v : List α)
    (h : r < σ.length) : readRef (writeRef σ r v) r = v := by
  unfold readRef writeRef
  rw [List.getElem?_set]
  simp [h]

lemma shuffleLoopRef_readRef_ne {α : Type} (rand : ℕ → ℕ) (arrRef : ℕ) :
    ∀ (i : ℕ) (σ : Store α) (r : ℕ), r ≠ arrRef →
      readRef (shuffleLoopRef rand arrRef i σ) r = readRef σ r := by
  intro i
  induction i with
  | zero => intro σ r _; rfl
  | succ i1 ih =>
    intro σ r h
    unfold shuffleLoopRef
    rw [ih _ r h, readRef_writeRef_ne]
    exact fun he => h he.symm

lemma shuffleLoopRef_readRef_self {α : Type} (rand : ℕ → ℕ) (arrRef : ℕ) :
    ∀ (i : ℕ) (σ : Store α), arrRef < σ.length →
      readRef (shuffleLoopRef rand arrRef i σ) arrRef =
        shuffleLoop rand (readRef σ arrRef) i := by
  intro i
  induction i with
  | zero => intro σ _; rfl
  | succ i1 ih =>
    intro σ h
    unfold shuffleLoopRef
    have hlen : arrRef < (writeRef σ arrRef
        (swapJS (readRef σ arrRef) (i1 + 1) (rand (i1 + 1) % (i1 + 2)))).length := by
      unfold writeRef
      simpa using h
    rw [ih _ hlen, readRef_writeRef_self _ _ _ h]
    rfl

lemma readRef_push_ne {α : Type} (σ : Store α) (v : List α) (s : ℕ)
    (h : s ≠ σ.length) : readRef (σ ++ [v]) s = readRef σ s := by
  unfold readRef
  rcases lt_or_gt_of_ne h with hlt | hgt
  · rw [List.getElem?_append, if_pos hlt]
  · have h1 : (σ ++ [v])[s]? = none := by
      apply List.getElem?_eq_none
      simpa using hgt
    have h2 : σ[s]? = none := by
      apply List.getElem?_eq_none
      omega
    rw [h1, h2]

lemma readRef_push_self {α : Type} (σ : Store α) (v : List α) :
    readRef (σ ++ [v]) σ.length = v := by
  unfold readRef
  rw [List.getElem?_append_right (le_refl _)]
  simp

/-- Claim C10: shuffleArray never mutates its argument: the result array is
a fresh allocation distinct from the argument reference, after the call the
argument reference (and every other existing reference) still holds exactly
the elements it held before in the same order, and the fresh array holds
the pure shuffle of the argument contents. -/
theorem shuffleArray_does_not_mutate_argument {α : Type} (rand : ℕ → ℕ)
    (σ : Store α) (r : ℕ) (h : r < σ.length) :
    (shuffleArrayRef rand σ r).2 ≠ r ∧
    readRef (shuffleArrayRef rand σ r).1 r = readRef σ r ∧
    (∀ s : ℕ, s ≠ (shuffleArrayRef rand σ r).2 →
      readRef (shuffleArrayRef rand σ r).1 s = readRef σ s) ∧
    readRef (shuffleArrayRef rand σ r).1 (shuffleArrayRef rand σ r).2 =
      shuffleArray rand (readRef σ r) := by
  have hother : ∀ s : ℕ, s ≠ σ.length →
      readRef (shuffleArrayRef rand σ r).1 s = readRef σ s := by
    intro s hs
    show readRef (shuffleLoopRef rand σ.length _ (σ ++ [readRef σ r])) s = _
    rw [shuffleLoopRef_readRef_ne rand σ.length _ _ s hs,
      readRef_push_ne σ _ s hs]
  refine ⟨Nat.ne_of_gt h, hother r (Nat.ne_of_lt h), hother, ?_⟩
  show readRef (shuffleLoopRef rand σ.length _ (σ ++ [readRef σ r]))
    σ.length = _
  rw [shuffleLoopRef_readRef_self rand σ.length _ _ (by simp),
    readRef_push_self]
  rfl

/-- Witness for claim C10 at a concrete input: a store holding one
three-element array, shuffled with the constant-zero stream. -/
theorem shuffleArray_does_not_mutate_argument_witness :
    (shuffleArrayRef (fun _ => 0) ([[1, 2, 3]] : Store ℕ) 0).2 ≠ 0 ∧
    readRef (shuffleArrayRef (fun _ => 0) ([[1, 2, 3]] : Store ℕ) 0).1 0 =
      readRef ([[1, 2, 3]] : Store ℕ) 0 ∧
    (∀ s : ℕ, s ≠ (shuffleArrayRef (fun _ => 0) ([[1, 2, 3]] : Store ℕ) 0).2 →
      readRef (shuffleArrayRef (fun _ => 0) ([[1, 2, 3]] : Store ℕ) 0).1 s =
        readRef ([[1, 2, 3]] : Store ℕ) s) ∧
    readRef (shuffleArrayRef (fun _ => 0) ([[1, 2, 3]] : Store ℕ) 0).1
        (shuffleArrayRef (fun _ => 0) ([[1, 2, 3]] : Store ℕ) 0).2 =
      shuffleArray (fun _ => 0) (readRef ([[1, 2, 3]] : Store ℕ) 0) :=
  shuffleArray_does_not_mutate_argument (fun _ => 0) [[1, 2, 3]] 0
    (by norm_num)

-- JavaScript number semantics for the rebuild coordinate transform of
-- ScatteredPieces.tsx (lines 64 to 70), which divides by the original
-- image dimensions with no zero check.

/-- A JavaScript number: finite, positive infinity, negative infinity or
NaN. -/
inductive JSNum where
  | num : ℚ → JSNum
  | posInf
  | negInf
  | nan
deriving DecidableEq

/-- JavaScript division: a finite nonzero value divided by zero gives a
signed infinity, zero divided by zero gives NaN; NaN propagates; an
infinity divided by a finite value keeps its sign (flipped for a negative
divisor); infinity divided by infinity is NaN. -/
def jsDiv : JSNum → JSNum → JSNum
  | JSNum.nan, _ => JSNum.nan
  | _, JSNum.nan => JSNum.nan
  | JSNum.num a, JSNum.num b =>
    if b = 0 then
      if a = 0 then JSNum.nan
      else if 0 < a then JSNum.posInf
      else JSNum.negInf
    else JSNum.num (a / b)
  | JSNum.num _, JSNum.posInf => JSNum.num 0
  | JSNum.num _, JSNum.negInf => JSNum.num 0
  | JSNum.posInf, JSNum.num b => if b < 0 then JSNum.negInf else JSNum.posInf
  | JSNum.negInf, JSNum.num b => if b < 0 then JSNum.posInf else JSNum.negInf
  | JSNum.posInf, JSNum.posInf => JSNum.nan
  | JSNum.posInf, JSNum.negInf => JSNum.nan
  | JSNum.negInf, JSNum.posInf => JSNum.nan
  | JSNum.negInf, JSNum.negInf => JSNum.nan

/-- JavaScript multiplication: NaN propagates; an infinity times zero is
NaN, an infinity times a nonzero finite value is a signed infinity. -/
def jsMul : JSNum → JSNum → JSNum
  | JSNum.nan, _ => JSNum.nan
  | _, JSNum.nan => JSNum.nan
  | JSNum.num a, JSNum.num b => JSNum.num (a * b)
  | JSNum.posInf, JSNum.num b =>
    if b = 0 then JSNum.nan else if 0 < b then JSNum.posInf else JSNum.negInf
  | JSNum.num a, JSNum.posInf =>
    if a = 0 then JSNum.nan else if 0 < a then JSNum.posInf else JSNum.negInf
  | JSNum.negInf, JSNum.num b =>
    if b = 0 then JSNum.nan else if 0 < b then JSNum.negInf else JSNum.posInf
  | JSNum.num a, JSNum.negInf =>
    if a = 0 then JSNum.nan else if 0 < a then JSNum.negInf else JSNum.posInf
  | JSNum.posInf, JSNum.posInf => JSNum.posInf
  | JSNum.posInf, JSNum.negInf => JSNum.negInf
  | JSNum.negInf, JSNum.posInf => JSNum.negInf
  | JSNum.negInf, JSNum.negInf => JSNum.posInf

/-- The rebuild transform of ScatteredPieces.tsx line 67: the original top
coordinate is divided by the original image height and scaled by the
container height 400. -/
def rebuildTop (posTop imgHeight : JSNum) : JSNum :=
  jsMul (jsDiv posTop imgHeight) (JSNum.num 400)

/-- The rebuild transform of ScatteredPieces.tsx line 68: the original left
coordinate is divided by the original image width and scaled by the
container width 800. -/
def rebuildLeft (posLeft imgWidth : JSNum) : JSNum :=
  jsMul (jsDiv posLeft imgWidth) (JSNum.num 800)

/-- Whether a JavaScript number is finite. -/
def isFiniteJS : JSNum → Bool
  | JSNum.num _ => true
  | _ => false

/-- Counterexample to claim C4 as stated: with a zero source height the
rebuild transform does not fail with any error; it computes Infinity for
the positive coordinate 100 (a division-by-zero-derived position) and NaN
for the coordinate 0, and no error value exists anywhere in the
transform. -/
theorem rebuild_zero_dimension_counterexample :
    rebuildTop (JSNum.num 100) (JSNum.num 0) = JSNum.posInf ∧
    isFiniteJS (rebuildTop (JSNum.num 100) (JSNum.num 0)) = false ∧
    rebuildTop (JSNum.num 0) (JSNum.num 0) = JSNum.nan := by
  refine ⟨?_, ?_, ?_⟩ <;> norm_num [rebuildTop, jsDiv, jsMul, isFiniteJS]

/-- Claim C4 (amended): the rebuild coordinate transform performs no zero
check on the source dimensions: for a zero source height or width it
returns a non-finite division-by-zero-derived value (Infinity or NaN)
instead of failing with an InvalidGeometry error, while for a nonzero
source dimension it returns the finite scaled coordinate. -/
theorem rebuild_zero_dimension_nonfinite (t l : ℚ) :
    isFiniteJS (rebuildTop (JSNum.num t) (JSNum.num 0)) = false ∧
    isFiniteJS (rebuildLeft (JSNum.num l) (JSNum.num 0)) = false ∧
    (∀ h0 : ℚ, h0 ≠ 0 →
      rebuildTop (JSNum.num t) (JSNum.num h0) = JSNum.num (t / h0 * 400)) := by
  refine ⟨?_, ?_, ?_⟩
  · rcases lt_trichotomy t 0 with h | h | h
    · norm_num [rebuildTop, jsDiv, jsMul, isFiniteJS, h.ne, not_lt.mpr h.le]
    · subst h
      norm_num [rebuildTop, jsDiv, jsMul, isFiniteJS]
    · norm_num [rebuildTop, jsDiv, jsMul, isFiniteJS, h.ne.symm, h]
  · rcases lt_trichotomy l 0 with h | h | h
    · norm_num [rebuildLeft, jsDiv, jsMul, isFiniteJS, h.ne, not_lt.mpr h.le]
    · subst h
      norm_num [rebuildLeft, jsDiv, jsMul, isFiniteJS]
    · norm_num [rebuildLeft, jsDiv, jsMul, isFiniteJS, h.ne.symm, h]
  · intro h0 hh
    norm_num [rebuildTop, jsDiv, jsMul, hh]

/-- Witness for the amended claim C4 at concrete inputs: coordinate 100
with zero and with nonzero source height. -/
theorem rebuild_zero_dimension_nonfinite_witness :
    isFiniteJS (rebuildTop (JSNum.num 100) (JSNum.num 0)) = false ∧
    rebuildTop (JSNum.num 100) (JSNum.num 1200) = JSNum.num (100 / 1200 * 400) := by
  have h := rebuild_zero_dimension_nonfinite 100 200
  exact ⟨h.1, h.2.2 1200 (by norm_num)⟩

-- Shatter and load-zip response processing (App.tsx handleShatter lines
-- 282 to 319 and handleLoadZipPieces lines 321 to 357; the part_002
-- variants, lines 585 to 622 and 624 to 660, are identical and live in
-- the component that also owns the animation state, so the animation
-- fields are carried in the state record).  Piece references (URLs) are
-- modelled as opaque identifiers and the user-facing error strings as a
-- tagged type.

/-- The user-facing errors the shatter and load-zip paths can set. -/
inductive ErrorMessage where
  | expectedPieces (expected got : ℕ)
  | expectedPiecesZip (expected got : ℕ)
  | shatterFailed
  | loadZipFailed
  | connectionFailed
deriving DecidableEq

/-- The component state touched by handleShatter and handleLoadZipPieces,
together with the animation fields of the part_002 variant. -/
structure AppState where
  pieces : List ℕ
  shuffledPieces : List ℕ
  originalImageSize : Option (ℚ × ℚ)
  shattered : Bool
  error : Option ErrorMessage
  rebuiltUrl : Option ℕ
  shatterRuntime : Option ℚ
  timingBreakdown : Option ℕ
  rebuildRuntime : Option ℚ
  rebuildTimingBreakdown : Option ℕ
  loading : Bool
  showGame : Bool
  placementData : Option PlacementData
  isAnimating : Bool
  scatteredPieces : List AnimPiece
  animationPhase : AnimationPhase
deriving DecidableEq

/-- The JSON body of a shatter or load-zip response (the load-zip body
carries no image size; the field is simply absent there). -/
structure ShatterResponse where
  pieces : Option (List ℕ)
  image_size : Option (ℚ × ℚ)
  runtime : Option ℚ
  timing_breakdown : Option ℕ
  error : Option ErrorMessage
deriving DecidableEq

/-- handleShatter once a response body has arrived: the writes before the
request (lines 287 to 292), then the branch on the piece count (lines 302
to 313), then the trailing writes (lines 317 to 318).  When the returned
piece count differs from the requested count only the error message is
set; the piece lists, the shattered flag and every animation field are left
as they were. -/
def handleShatterResponse (pieceCount : ℕ) (data : ShatterResponse)
    (s : AppState) : AppState :=
  let s0 := { s with loading := true, showGame := true, error := none,
                     rebuiltUrl := none, shatterRuntime := none,
                     timingBreakdown := none }
  let s1 :=
    match data.pieces with
    | some ps =>
      if ps.length = pieceCount then
        { s0 with pieces := ps, shuffledPieces := ps,
                  originalImageSize := data.image_size, shattered := true,
                  shatterRuntime := data.runtime,
                  timingBreakdown := data.timing_breakdown }
      else
        { s0 with error := some (ErrorMessage.expectedPieces pieceCount ps.length) }
    | none =>
      { s0 with error := some (data.error.getD ErrorMessage.shatterFailed) }
  { s1 with loading := false, showGame := false }

/-- handleLoadZipPieces once a response body has arrived: the writes before
the request (lines 326 to 331), then the branch on the piece count (lines
341 to 351), then the trailing writes (lines 355 to 356).  The same count
contract as handleShatter: a mismatch sets only the error message (with the
zip wording) and replaces nothing. -/
def handleLoadZipResponse (pieceCount : ℕ) (data : ShatterResponse)
    (s : AppState) : AppState :=
  let s0 := { s with loading := true, showGame := true, error := none,
                     rebuiltUrl := none, rebuildRuntime := none,
                     rebuildTimingBreakdown := none }
  let s1 :=
    match data.pieces with
    | some ps =>
      if ps.length = pieceCount then
        { s0 with pieces := ps, shuffledPieces := ps, shattered := true,
                  rebuildRuntime := data.runtime,
                  rebuildTimingBreakdown := data.timing_breakdown }
      else
        { s0 with error := some (ErrorMessage.expectedPiecesZip pieceCount ps.length) }
    | none =>
      { s0 with error := some (data.error.getD ErrorMessage.loadZipFailed) }
  { s1 with loading := false, showGame := false }

/-- Claim C8: when a shatter or a load-zip response returns a piece count
different from the requested count, the engine surfaces the count-mismatch
error and accepts nothing: on either path the piece lists are not replaced,
no truncated subset is taken, the shattered flag is unchanged, and no
animation state is created (placement data, animating flag, scattered
pieces and phase are all untouched), leaving the engine restartable with
its previous piece set. -/
theorem count_mismatch_preserves_state (pieceCount : ℕ)
    (data : ShatterResponse) (s : AppState) (ps : List ℕ)
    (hp : data.pieces = some ps) (hne : ps.length ≠ pieceCount) :
    ((handleShatterResponse pieceCount data s).pieces = s.pieces ∧
     (handleShatterResponse pieceCount data s).shuffledPieces = s.shuffledPieces ∧
     (handleShatterResponse pieceCount data s).shattered = s.shattered ∧
     (handleShatterResponse pieceCount data s).originalImageSize = s.originalImageSize ∧
     (handleShatterResponse pieceCount data s).error =
       some (ErrorMessage.expectedPieces pieceCount ps.length) ∧
     (handleShatterResponse pieceCount data s).placementData = s.placementData ∧
     (handleShatterResponse pieceCount data s).isAnimating = s.isAnimating ∧
     (handleShatterResponse pieceCount data s).scatteredPieces = s.scatteredPieces ∧
     (handleShatterResponse pieceCount data s).animationPhase = s.animationPhase ∧
     (handleShatterResponse pieceCount data s).loading = false) ∧
    ((handleLoadZipResponse pieceCount data s).pieces = s.pieces ∧
     (handleLoadZipResponse pieceCount data s).shuffledPieces = s.shuffledPieces ∧
     (handleLoadZipResponse pieceCount data s).shattered = s.shattered ∧
     (handleLoadZipResponse pieceCount data s).originalImageSize = s.originalImageSize ∧
     (handleLoadZipResponse pieceCount data s).error =
       some (ErrorMessage.expectedPiecesZip pieceCount ps.length) ∧
     (handleLoadZipResponse pieceCount data s).placementData = s.placementData ∧
     (handleLoadZipResponse pieceCount data s).isAnimating = s.isAnimating ∧
     (handleLoadZipResponse pieceCount data s).scatteredPieces = s.scatteredPieces ∧
     (handleLoadZipResponse pieceCount data s).animationPhase = s.animationPhase ∧
     (handleLoadZipResponse pieceCount data s).loading = false) := by
  constructor
  · unfold handleShatterResponse
    rw [hp]
    simp [hne]
  · unfold handleLoadZipResponse
    rw [hp]
    simp [hne]

/-- Witness for claim C8 at a concrete input: a response with 49 pieces
against the requested 50, arriving at a state that holds a previous valid
set of 50 pieces, on both the shatter and the load-zip path. -/
theorem count_mismatch_preserves_state_witness :
    (handleShatterResponse 50
      { pieces := some (List.range 49), image_size := none, runtime := none,
        timing_breakdown := none, error := none }
      { pieces := List.range 50, shuffledPieces := List.range 50,
        originalImageSize := none, shattered := true, error := none,
        rebuiltUrl := none, shatterRuntime := none, timingBreakdown := none,
        rebuildRuntime := none, rebuildTimingBreakdown := none,
        loading := false, showGame := false, placementData := none,
        isAnimating := false, scatteredPieces := [],
        animationPhase := AnimationPhase.scattered }).pieces = List.range 50 ∧
    (handleShatterResponse 50
      { pieces := some (List.range 49), image_size := none, runtime := none,
        timing_breakdown := none, error := none }
      { pieces := List.range 50, shuffledPieces := List.range 50,
        originalImageSize := none, shattered := true, error := none,
        rebuiltUrl := none, shatterRuntime := none, timingBreakdown := none,
        rebuildRuntime := none, rebuildTimingBreakdown := none,
        loading := false, showGame := false, placementData := none,
        isAnimating := false, scatteredPieces := [],
        animationPhase := AnimationPhase.scattered }).error =
      some (ErrorMessage.expectedPieces 50 49) ∧
    (handleLoadZipResponse 50
      { pieces := some (List.range 49), image_size := none, runtime := none,
        timing_breakdown := none, error := none }
      { pieces := List.range 50, shuffledPieces := List.range 50,
        originalImageSize := none, shattered := true, error := none,
        rebuiltUrl := none, shatterRuntime := none, timingBreakdown := none,
        rebuildRuntime := none, rebuildTimingBreakdown := none,
        loading := false, showGame := false, placementData := none,
        isAnimating := false, scatteredPieces := [],
        animationPhase := AnimationPhase.scattered }).pieces = List.range 50 ∧
    (handleLoadZipResponse 50
      { pieces := some (List.range 49), image_size := none, runtime := none,
        timing_breakdown := none, error := none }
      { pieces := List.range 50, shuffledPieces := List.range 50,
        originalImageSize := none, shattered := true, error := none,
        rebuiltUrl := none, shatterRuntime := none, timingBreakdown := none,
        rebuildRuntime := none, rebuildTimingBreakdown := none,
        loading := false, showGame := false, placementData := none,
        isAnimating := false, scatteredPieces := [],
        animationPhase := AnimationPhase.scattered }).error =
      some (ErrorMessage.expectedPiecesZip 50 49) := by
  have h := count_mismatch_preserves_state 50
    { pieces := some (List.range 49), image_size := none, runtime := none,
      timing_breakdown := none, error := none }
    { pieces := List.range 50, shuffledPieces := List.range 50,
      originalImageSize := none, shattered := true, error := none,
      rebuiltUrl := none, shatterRuntime := none, timingBreakdown := none,
      rebuildRuntime := none, rebuildTimingBreakdown := none,
      loading := false, showGame := false, placementData := none,
      isAnimating := false, scatteredPieces := [],
      animationPhase := AnimationPhase.scattered }
    (List.range 49) rfl (by simp)
  exact ⟨h.1.1, by simpa using h.1.2.2.2.2.1, h.2.1,
    by simpa using h.2.2.2.2.2.1⟩
